import Mathlib

/-!
Verification development for the directed call pickup application
(trunk/apps/app_directed_pickup.c of the Asterisk telephony toolkit).

The C module is embedded shallowly:

* machine strings are Lean `String`; `strcasecmp(a,b) == 0` is modelled by
  ASCII lower-casing of the code points of both sides (`strEqCI`);
* a channel (`struct ast_channel`) keeps only the fields the module reads:
  name, the pbx pointer (as a Bool `hasPbx`), `_state`, `exten`,
  `macroexten`, `dialcontext`, `context`, and the variable store;
* the external engine calls (`ast_answer`, `ast_queue_control`,
  `ast_channel_masquerade`, `ast_pickup_call`) are collaborators whose
  outcomes are supplied by an environment `Env`;
* the channel registry walked by `ast_channel_walk_locked` is a
  `List Channel` in enumeration order;
* every observable action (examining a registry entry, the three merge
  steps, log lines, the group-pickup fallback) is recorded in an event
  trace, so ordering and skipping behaviour can be stated as theorems.
-/

namespace DirectedPickup

/-- ASCII lower-casing of one character code, as C `tolower` in the default
locale: code points 65..90 map to 97..122, every other code point is kept. -/
def lowerNat (c : Char) : Nat :=
  if 65 ≤ c.toNat ∧ c.toNat ≤ 90 then c.toNat + 32 else c.toNat

/-- Case-insensitive string equality: the model of `strcasecmp(a, b) == 0`. -/
def strEqCI (a b : String) : Bool :=
  a.data.map lowerNat == b.data.map lowerNat

/-- Channel states (`AST_STATE_*` of asterisk/channel.h); the module only
distinguishes `Ringing` and `Ring` from the rest. -/
inductive ChanState
  | Down
  | Reserved
  | OffHook
  | Dialing
  | Ring
  | Ringing
  | Up
  | Busy
  deriving DecidableEq

/-- The fields of `struct ast_channel` read by app_directed_pickup.c.
`hasPbx` models whether the `pbx` pointer is non-null (attached to dialplan
execution); `vars` is the channel variable store read through
`pbx_builtin_getvar_helper`. -/
structure Channel where
  name : String
  hasPbx : Bool
  state : ChanState
  exten : String
  macroexten : String
  dialcontext : String
  context : String
  vars : List (String × String)
  deriving DecidableEq

/-- Outcomes of the external engine calls consumed by the module:
`answerOk c` is true when `ast_answer(c)` returns 0, `queueOk c` when
`ast_queue_control(c, AST_CONTROL_ANSWER)` returns 0, `masqOk c t` when
`ast_channel_masquerade(t, c)` returns 0, and `groupPickupRes c` is the
return value of the `ast_pickup_call(c)` group-pickup fallback. -/
structure Env where
  answerOk : Channel → Bool
  queueOk : Channel → Bool
  masqOk : Channel → Channel → Bool
  groupPickupRes : Channel → Int

/-- Observable actions of one pickup invocation, in order of occurrence:
`examined n` a registry channel named n was locked and tested by a scanner;
`answer`, `queueAnswer`, `masquerade` the three merge steps as attempted;
`warning` and `notice` the log lines; `markScan` and `extenScan` entry into
`pickup_by_mark` and `pickup_by_exten`; `groupPickup` the fallback call. -/
inductive Event
  | examined (name : String)
  | answer (name : String)
  | queueAnswer (name : String)
  | masquerade (targetName chanName : String)
  | warning (msg : String)
  | notice (exten : String)
  | markScan (mark : String)
  | extenScan (exten context : String)
  | groupPickup
  deriving DecidableEq

/-- The reserved sentinel context (`#define PICKUPMARK "PICKUPMARK"`). -/
def PICKUPMARK : String := "PICKUPMARK"

/-- Model of `pbx_builtin_getvar_helper(c, key)` over the channel variable
store: the value of the first binding of `key`, when any. -/
def getVar (c : Channel) (key : String) : Option String :=
  (c.vars.find? (fun p => p.1 == key)).map (fun p => p.2)

/-- `pickup_do(chan, target)` (lines 55..77): answer `chan`; on success queue
`AST_CONTROL_ANSWER` on `chan`; on success masquerade `target` into `chan`.
Each failing step logs a warning and returns -1 at once; full success
returns 0.  The value is the C return code paired with the event trace. -/
def pickup_do (env : Env) (chan target : Channel) : Int × List Event :=
  if !(env.answerOk chan) then
    (-1, [Event.answer chan.name, Event.warning ("Unable to answer " ++ chan.name)])
  else if !(env.queueOk chan) then
    (-1, [Event.answer chan.name, Event.queueAnswer chan.name,
          Event.warning ("Unable to queue answer on " ++ chan.name)])
  else if !(env.masqOk chan target) then
    (-1, [Event.answer chan.name, Event.queueAnswer chan.name,
          Event.masquerade target.name chan.name,
          Event.warning ("Unable to masquerade " ++ chan.name ++ " into " ++ target.name)])
  else
    (0, [Event.answer chan.name, Event.queueAnswer chan.name,
         Event.masquerade target.name chan.name])

/-- `can_pickup(chan)` (lines 80..86): no pbx attached and state RINGING or
RING.  The C int result 1/0 is modelled as a Bool. -/
def can_pickup (c : Channel) : Bool :=
  !c.hasPbx && (c.state == ChanState.Ringing || c.state == ChanState.Ring)

/-- The per-channel match test of `pickup_by_exten` (lines 94..96):
`!strcasecmp(target->macroexten, exten) || !strcasecmp(target->exten, exten)`
and `!strcasecmp(target->dialcontext, context)`. -/
def extenMatch (target : Channel) (exten context : String) : Bool :=
  (strEqCI target.macroexten exten || strEqCI target.exten exten) &&
    strEqCI target.dialcontext context

/-- The per-channel match test of `pickup_by_mark` (lines 115..116): the
PICKUPMARK variable of the channel exists and equals `mark` ignoring case. -/
def markMatch (target : Channel) (mark : String) : Bool :=
  match getVar target PICKUPMARK with
  | none => false
  | some v => strEqCI v mark

/-- `pickup_by_exten(chan, exten, context)` (lines 89..106): walk the
registry; on the first channel passing the match test and `can_pickup`,
run `pickup_do` and stop (`break`), returning its result; otherwise keep
walking; -1 when the walk is exhausted.  Each visited channel is recorded
as an `examined` event. -/
def pickup_by_exten (env : Env) (chan : Channel) (exten context : String) :
    List Channel → Int × List Event
  | [] => (-1, [])
  | target :: rest =>
    if extenMatch target exten context && can_pickup target then
      ((pickup_do env chan target).1,
        Event.examined target.name :: (pickup_do env chan target).2)
    else
      ((pickup_by_exten env chan exten context rest).1,
        Event.examined target.name :: (pickup_by_exten env chan exten context rest).2)

/-- `pickup_by_mark(chan, mark)` (lines 109..127): the same walk with the
mark match test. -/
def pickup_by_mark (env : Env) (chan : Channel) (mark : String) :
    List Channel → Int × List Event
  | [] => (-1, [])
  | target :: rest =>
    if markMatch target mark && can_pickup target then
      ((pickup_do env chan target).1,
        Event.examined target.name :: (pickup_do env chan target).2)
    else
      ((pickup_by_mark env chan mark rest).1,
        Event.examined target.name :: (pickup_by_mark env chan mark rest).2)

/-- Split a character list at every occurrence of the delimiter `d`; the
result always has one more token than there are delimiters. -/
def splitAll (d : Char) : List Char → List (List Char)
  | [] => [[]]
  | c :: cs =>
    if c = d then [] :: splitAll d cs
    else
      match splitAll d cs with
      | [] => [[c]]
      | t :: ts => (c :: t) :: ts

/-- Drop a final empty token.  The C loop checks `!ast_strlen_zero(tmp)`
before each `strsep`, so a trailing delimiter yields no extra empty token. -/
def dropTrailingEmpty : List (List Char) → List (List Char)
  | [] => []
  | [t] => if t = [] then [] else [t]
  | t :: ts => t :: dropTrailingEmpty ts

/-- The token sequence produced by the `strsep(&tmp, "&")` loop of
`pickup_exec` (line 142) on a spec string. -/
def parseTokens (s : String) : List String :=
  (dropTrailingEmpty (splitAll '&' s.data)).map (fun l => String.mk l)

/-- Split a character list at the first occurrence of the tag character,
as `strchr(exten, '@')` followed by `*context++ = 0` (lines 143..144);
none when no tag occurs. -/
def splitAtTagAux : List Char → Option (List Char × List Char)
  | [] => none
  | c :: cs =>
    if c = '@' then some ([], cs)
    else
      match splitAtTagAux cs with
      | none => none
      | some (a, b) => some (c :: a, b)

/-- Split one spec token into the extension part and the optional context
part (the text after the first `@`). -/
def splitAtFirstAt (s : String) : String × Option String :=
  match splitAtTagAux s.data with
  | none => (s, none)
  | some (a, b) => (String.mk a, some (String.mk b))

/-- The branch condition of line 145:
`!ast_strlen_zero(context) && !strcasecmp(context, PICKUPMARK)`. -/
def ctxIsMark : Option String → Bool
  | none => false
  | some c => !(c == "") && strEqCI c PICKUPMARK

/-- The context argument of line 149:
`!ast_strlen_zero(context) ? context : chan->context`. -/
def ctxOrDefault : Option String → String → String
  | none, d => d
  | some c, d => if c == "" then d else c

/-- `ast_strlen_zero` on an optional C string: null or empty. -/
def ast_strlen_zero : Option String → Bool
  | none => true
  | some s => s == ""

/-- The spec-list loop of `pickup_exec` (lines 142..153) over the parsed
token list.  For each token: split off the context; when the context is
the PICKUPMARK sentinel try `pickup_by_mark`, stopping (`break`) on result
0; otherwise try `pickup_by_exten` with the supplied context or, when none
was given, the context of the requesting channel, stopping on result 0; on
a nonzero result log the per-spec notice (line 152) and continue.  The C
variable `res` is never written inside the loop, so only the trace is
produced here. -/
def pickup_specs (env : Env) (chan : Channel) (registry : List Channel) :
    List String → List Event
  | [] => []
  | tok :: rest =>
    if ctxIsMark (splitAtFirstAt tok).2 then
      if (pickup_by_mark env chan (splitAtFirstAt tok).1 registry).1 = 0 then
        Event.markScan (splitAtFirstAt tok).1 ::
          (pickup_by_mark env chan (splitAtFirstAt tok).1 registry).2
      else
        Event.markScan (splitAtFirstAt tok).1 ::
          ((pickup_by_mark env chan (splitAtFirstAt tok).1 registry).2 ++
            (Event.notice (splitAtFirstAt tok).1 :: pickup_specs env chan registry rest))
    else
      if (pickup_by_exten env chan (splitAtFirstAt tok).1
            (ctxOrDefault (splitAtFirstAt tok).2 chan.context) registry).1 = 0 then
        Event.extenScan (splitAtFirstAt tok).1
            (ctxOrDefault (splitAtFirstAt tok).2 chan.context) ::
          (pickup_by_exten env chan (splitAtFirstAt tok).1
            (ctxOrDefault (splitAtFirstAt tok).2 chan.context) registry).2
      else
        Event.extenScan (splitAtFirstAt tok).1
            (ctxOrDefault (splitAtFirstAt tok).2 chan.context) ::
          ((pickup_by_exten env chan (splitAtFirstAt tok).1
              (ctxOrDefault (splitAtFirstAt tok).2 chan.context) registry).2 ++
            (Event.notice (splitAtFirstAt tok).1 :: pickup_specs env chan registry rest))

/-- `pickup_exec(chan, data)` (lines 130..156): on a null or empty spec
string return the result of the `ast_pickup_call` fallback; otherwise run
the spec-list loop and return `res`, which stays 0 from its initialisation
on this path. -/
def pickup_exec (env : Env) (chan : Channel) (registry : List Channel)
    (data : Option String) : Int × List Event :=
  if ast_strlen_zero data then
    (env.groupPickupRes chan, [Event.groupPickup])
  else
    (0, pickup_specs env chan registry (parseTokens (data.getD (""))))

/-- A sample requesting channel used by witness instantiations. -/
def chanA : Channel :=
  { name := "req", hasPbx := true, state := ChanState.Up, exten := "s",
    macroexten := "", dialcontext := "", context := "default", vars := [] }

/-- A ringing unattached channel dialing extension 100 in context default,
carrying pickup mark 10; used by witness instantiations. -/
def ringB : Channel :=
  { name := "tgt", hasPbx := false, state := ChanState.Ringing, exten := "100",
    macroexten := "", dialcontext := "default", context := "default",
    vars := [(("PICKUPMARK"), ("10"))] }

/-- An environment in which every external engine call succeeds. -/
def envAllOk : Env :=
  { answerOk := fun _ => true, queueOk := fun _ => true,
    masqOk := fun _ _ => true, groupPickupRes := fun _ => 0 }

/-- An environment in which the masquerade step fails and everything else
succeeds. -/
def envMasqFail : Env :=
  { answerOk := fun _ => true, queueOk := fun _ => true,
    masqOk := fun _ _ => false, groupPickupRes := fun _ => 0 }

/-- An unattached channel in state Up dialing 100 in default, eligible for
no pickup; used by witness instantiations. -/
def idleU : Channel :=
  { name := "u", hasPbx := false, state := ChanState.Up, exten := "100",
    macroexten := "", dialcontext := "default", context := "default", vars := [] }

/-- A second ringing channel placed after the selected target in witness
registries, to show it is never examined. -/
def ringV : Channel :=
  { name := "v", hasPbx := false, state := ChanState.Ringing, exten := "100",
    macroexten := "", dialcontext := "default", context := "default",
    vars := [(("PICKUPMARK"), ("10"))] }

/-- `strEqCI` is symmetric, as equality of the two lowered strings. -/
theorem strEqCI_comm (a b : String) : strEqCI a b = strEqCI b a := by
  unfold strEqCI
  rw [Bool.eq_iff_iff]
  simp only [beq_iff_eq]
  exact ⟨Eq.symm, Eq.symm⟩

/-- C5: the eligibility predicate holds exactly for channels with no pbx
attached whose state is RINGING or RING; so attachment excludes a channel
in any state, and any other state excludes a channel however attached. -/
theorem C5_can_pickup_iff (c : Channel) :
    can_pickup c = true ↔
      (c.hasPbx = false ∧ (c.state = ChanState.Ringing ∨ c.state = ChanState.Ring)) := by
  cases hb : c.hasPbx <;> cases hs : c.state <;> simp [can_pickup, hb, hs]

/-- C6: the extension match test passes exactly when the identifier equals
the current extension or the macro extension of the channel ignoring case,
and the context equals the dial context of the channel ignoring case. -/
theorem C6_exten_match_iff (t : Channel) (e c : String) :
    extenMatch t e c = true ↔
      ((strEqCI e t.exten = true ∨ strEqCI e t.macroexten = true) ∧
        strEqCI c t.dialcontext = true) := by
  unfold extenMatch
  rw [strEqCI_comm t.macroexten e, strEqCI_comm t.exten e, strEqCI_comm t.dialcontext c]
  simp only [Bool.and_eq_true, Bool.or_eq_true]
  tauto

/-- The merge result code is 0 or -1, never anything else. -/
theorem pickup_do_fst (env : Env) (chan t : Channel) :
    (pickup_do env chan t).1 = 0 ∨ (pickup_do env chan t).1 = -1 := by
  unfold pickup_do
  cases h1 : env.answerOk chan <;> cases h2 : env.queueOk chan <;>
    cases h3 : env.masqOk chan t <;> simp [h1, h2, h3]

/-- C3: the merge runs answer, answer-signal queueing, masquerade in that
fixed order; the masquerade step is attempted exactly when both the answer
and the queue step succeeded; a failing step returns -1 at once with every
later step skipped and no compensating action in the trace; full success
returns 0 with exactly the three steps in order. -/
theorem C3_pickup_do_steps (env : Env) (chan t : Channel) :
    ((env.answerOk chan = true → env.queueOk chan = true → env.masqOk chan t = true →
      pickup_do env chan t =
        (0, [Event.answer chan.name, Event.queueAnswer chan.name,
             Event.masquerade t.name chan.name])) ∧
    (env.answerOk chan = false →
      pickup_do env chan t =
        (-1, [Event.answer chan.name,
              Event.warning ("Unable to answer " ++ chan.name)])) ∧
    (env.answerOk chan = true → env.queueOk chan = false →
      pickup_do env chan t =
        (-1, [Event.answer chan.name, Event.queueAnswer chan.name,
              Event.warning ("Unable to queue answer on " ++ chan.name)])) ∧
    (env.answerOk chan = true → env.queueOk chan = true → env.masqOk chan t = false →
      pickup_do env chan t =
        (-1, [Event.answer chan.name, Event.queueAnswer chan.name,
              Event.masquerade t.name chan.name,
              Event.warning ("Unable to masquerade " ++ chan.name ++ " into " ++ t.name)]))) ∧
    ((Event.masquerade t.name chan.name ∈ (pickup_do env chan t).2) ↔
      (env.answerOk chan = true ∧ env.queueOk chan = true)) := by
  unfold pickup_do
  cases h1 : env.answerOk chan <;> cases h2 : env.queueOk chan <;>
    cases h3 : env.masqOk chan t <;> simp [h1, h2, h3]

/-- Witness for C3 at concrete inputs: with every step succeeding the merge
returns 0 with the three steps in order, and with a failing masquerade it
returns -1 with the masquerade attempted last and no further action. -/
theorem C3_pickup_do_steps_witness :
    pickup_do envAllOk chanA ringB =
      (0, [Event.answer (("req")), Event.queueAnswer (("req")),
           Event.masquerade (("tgt")) (("req"))]) ∧
    pickup_do envMasqFail chanA ringB =
      (-1, [Event.answer (("req")), Event.queueAnswer (("req")),
            Event.masquerade (("tgt")) (("req")),
            Event.warning (("Unable to masquerade req into tgt"))]) :=
  ⟨(C3_pickup_do_steps envAllOk chanA ringB).1.1 rfl rfl rfl,
   (C3_pickup_do_steps envMasqFail chanA ringB).1.2.2.2 rfl rfl rfl⟩

/-- C9: on a null or an empty spec string the driver does no parsing and no
scanning: the trace is exactly the group-pickup fallback call, and the
result is the fallback result unchanged, whatever it is. -/
theorem C9_empty_delegates (env : Env) (chan : Channel) (reg : List Channel) :
    pickup_exec env chan reg none = (env.groupPickupRes chan, [Event.groupPickup]) ∧
    pickup_exec env chan reg (some ("")) =
      (env.groupPickupRes chan, [Event.groupPickup]) := by
  constructor <;> rfl

/-- On a non-empty spec string the driver runs the spec-list loop and the
result code is the untouched initial 0. -/
theorem pickup_exec_nonempty (env : Env) (chan : Channel) (reg : List Channel)
    (s : String) (h : s ≠ "") :
    pickup_exec env chan reg (some s) = (0, pickup_specs env chan reg (parseTokens s)) := by
  unfold pickup_exec
  simp [ast_strlen_zero, h]

/-- C1: for every non-empty spec string the driver returns 0 to its caller,
for every environment (so independently of any match or merge outcome) and
every registry. -/
theorem C1_nonempty_returns_zero (env : Env) (chan : Channel) (reg : List Channel)
    (s : String) (h : s ≠ "") :
    (pickup_exec env chan reg (some s)).1 = 0 := by
  rw [pickup_exec_nonempty env chan reg s h]

/-- Witness for C1 at a concrete input: the spec string 999 matches nothing
in an empty registry and the driver still returns 0. -/
theorem C1_nonempty_returns_zero_witness :
    (pickup_exec envAllOk chanA [] (some (("999")))).1 = 0 :=
  C1_nonempty_returns_zero envAllOk chanA [] (("999")) (by decide)

/-- C7: the mark match test passes exactly when the PICKUPMARK variable
lookup on the channel yields a value equal to the identifier ignoring
case; a channel with no such variable never matches. -/
theorem C7_mark_match_iff (t : Channel) (m : String) :
    markMatch t m = true ↔
      ∃ v, getVar t PICKUPMARK = some v ∧ strEqCI v m = true := by
  cases h : getVar t PICKUPMARK <;> simp [markMatch, h]

/-- C8: for both scanners, when every channel of a prefix fails the
combined match-and-eligibility test and channel t passes it, the scan
examines exactly the prefix and t, hands t to the merge and returns its
result; the channels after t are never examined, whatever they are, so at
most one channel is selected per spec evaluation. -/
theorem C8_first_match_wins (env : Env) (chan : Channel) (e c m : String)
    (pre post : List Channel) (t : Channel) :
    ((∀ u ∈ pre, (extenMatch u e c && can_pickup u) = false) →
      (extenMatch t e c && can_pickup t) = true →
      pickup_by_exten env chan e c (pre ++ t :: post) =
        ((pickup_do env chan t).1,
          pre.map (fun u => Event.examined u.name) ++
            (Event.examined t.name :: (pickup_do env chan t).2))) ∧
    ((∀ u ∈ pre, (markMatch u m && can_pickup u) = false) →
      (markMatch t m && can_pickup t) = true →
      pickup_by_mark env chan m (pre ++ t :: post) =
        ((pickup_do env chan t).1,
          pre.map (fun u => Event.examined u.name) ++
            (Event.examined t.name :: (pickup_do env chan t).2))) := by
  constructor
  · intro hpre ht
    induction pre with
    | nil => simp [pickup_by_exten, ht]
    | cons u us ih =>
      have hu : (extenMatch u e c && can_pickup u) = false := hpre u (by simp)
      have ih2 := ih (fun v hv => hpre v (by simp [hv]))
      simp [pickup_by_exten, hu, ih2]
  · intro hpre ht
    induction pre with
    | nil => simp [pickup_by_mark, ht]
    | cons u us ih =>
      have hu : (markMatch u m && can_pickup u) = false := hpre u (by simp)
      have ih2 := ih (fun v hv => hpre v (by simp [hv]))
      simp [pickup_by_mark, hu, ih2]

/-- Witness for C8 at concrete inputs: with a non-matching channel before
the target and another matching channel after it, both scanners examine
only the first two channels and merge the first match. -/
theorem C8_first_match_wins_witness :
    pickup_by_exten envAllOk chanA (("100")) (("default")) ([idleU] ++ ringB :: [ringV]) =
      ((pickup_do envAllOk chanA ringB).1,
        [idleU].map (fun u => Event.examined u.name) ++
          (Event.examined ringB.name :: (pickup_do envAllOk chanA ringB).2)) ∧
    pickup_by_mark envAllOk chanA (("10")) ([idleU] ++ ringB :: [ringV]) =
      ((pickup_do envAllOk chanA ringB).1,
        [idleU].map (fun u => Event.examined u.name) ++
          (Event.examined ringB.name :: (pickup_do envAllOk chanA ringB).2)) :=
  ⟨(C8_first_match_wins envAllOk chanA (("100")) (("default")) (("10")) [idleU] [ringV] ringB).1
      (by decide) (by decide),
   (C8_first_match_wins envAllOk chanA (("100")) (("default")) (("10")) [idleU] [ringV] ringB).2
      (by decide) (by decide)⟩

/-- When the extension scan over a registry finds a first match t, the scan
result code is the merge result on t. -/
theorem by_exten_fst_of_find (env : Env) (chan : Channel) (e c : String) :
    ∀ (reg : List Channel) (t : Channel),
      reg.find? (fun u => extenMatch u e c && can_pickup u) = some t →
      (pickup_by_exten env chan e c reg).1 = (pickup_do env chan t).1 := by
  intro reg
  induction reg with
  | nil => intro t h; simp at h
  | cons u us ih =>
    intro t h
    by_cases hc : (extenMatch u e c && can_pickup u) = true
    · have hut : u = t := by simp [List.find?, hc] at h; exact h
      subst hut
      simp [pickup_by_exten, hc]
    · have h2 : List.find? (fun u => extenMatch u e c && can_pickup u) us = some t := by
        simpa [List.find?, hc] using h
      simp [pickup_by_exten, hc, ih t h2]

/-- When the mark scan over a registry finds a first match t, the scan
result code is the merge result on t. -/
theorem by_mark_fst_of_find (env : Env) (chan : Channel) (m : String) :
    ∀ (reg : List Channel) (t : Channel),
      reg.find? (fun u => markMatch u m && can_pickup u) = some t →
      (pickup_by_mark env chan m reg).1 = (pickup_do env chan t).1 := by
  intro reg
  induction reg with
  | nil => intro t h; simp at h
  | cons u us ih =>
    intro t h
    by_cases hc : (markMatch u m && can_pickup u) = true
    · have hut : u = t := by simp [List.find?, hc] at h; exact h
      subst hut
      simp [pickup_by_mark, hc]
    · have h2 : List.find? (fun u => markMatch u m && can_pickup u) us = some t := by
        simpa [List.find?, hc] using h
      simp [pickup_by_mark, hc, ih t h2]

/-- C4: for every spec of the parsed list, of either kind, when the scan
does find a target and the merge on it fails the scanner returns -1, the
same code as when nothing was found, so the driver logs the per-spec
not-found notice and continues with the remaining specs exactly as in the
not-found case.  The first conjunct covers extension-kind specs, the
second mark-kind specs. -/
theorem C4_merge_fail_like_not_found (env : Env) (chan : Channel) (reg : List Channel)
    (tok : String) (rest : List String) (exten : String) (ctx? : Option String)
    (t : Channel)
    (hsplit : splitAtFirstAt tok = (exten, ctx?)) :
    (ctxIsMark ctx? = false →
      reg.find?
        (fun u => extenMatch u exten (ctxOrDefault ctx? chan.context) && can_pickup u) = some t →
      (pickup_do env chan t).1 ≠ 0 →
      (pickup_by_exten env chan exten (ctxOrDefault ctx? chan.context) reg).1 = -1 ∧
      pickup_specs env chan reg (tok :: rest) =
        Event.extenScan exten (ctxOrDefault ctx? chan.context) ::
          ((pickup_by_exten env chan exten (ctxOrDefault ctx? chan.context) reg).2 ++
            (Event.notice exten :: pickup_specs env chan reg rest))) ∧
    (ctxIsMark ctx? = true →
      reg.find? (fun u => markMatch u exten && can_pickup u) = some t →
      (pickup_do env chan t).1 ≠ 0 →
      (pickup_by_mark env chan exten reg).1 = -1 ∧
      pickup_specs env chan reg (tok :: rest) =
        Event.markScan exten ::
          ((pickup_by_mark env chan exten reg).2 ++
            (Event.notice exten :: pickup_specs env chan reg rest))) := by
  constructor
  · intro hmark hfind hfail
    have h1 := by_exten_fst_of_find env chan exten (ctxOrDefault ctx? chan.context) reg t hfind
    have h2 : (pickup_do env chan t).1 = -1 := (pickup_do_fst env chan t).resolve_left hfail
    have h3 : (pickup_by_exten env chan exten (ctxOrDefault ctx? chan.context) reg).1 = -1 :=
      h1.trans h2
    refine ⟨h3, ?_⟩
    simp [pickup_specs, hsplit, hmark, h3]
  · intro hmark hfind hfail
    have h1 := by_mark_fst_of_find env chan exten reg t hfind
    have h2 : (pickup_do env chan t).1 = -1 := (pickup_do_fst env chan t).resolve_left hfail
    have h3 : (pickup_by_mark env chan exten reg).1 = -1 := h1.trans h2
    refine ⟨h3, ?_⟩
    simp [pickup_specs, hsplit, hmark, h3]

/-- Witness for C4 at concrete inputs, one per branch: the extension spec
100 and the mark spec 10@PICKUPMARK both find the ringing channel, the
masquerade fails, the scanner reports -1 and the driver logs the notice
for the spec and moves on. -/
theorem C4_merge_fail_like_not_found_witness :
    ((pickup_by_exten envMasqFail chanA (("100")) (ctxOrDefault none chanA.context) [ringB]).1 = -1 ∧
     pickup_specs envMasqFail chanA [ringB] ([("100")]) =
       Event.extenScan (("100")) (ctxOrDefault none chanA.context) ::
         ((pickup_by_exten envMasqFail chanA (("100")) (ctxOrDefault none chanA.context) [ringB]).2 ++
           (Event.notice (("100")) :: pickup_specs envMasqFail chanA [ringB] []))) ∧
    ((pickup_by_mark envMasqFail chanA (("10")) [ringB]).1 = -1 ∧
     pickup_specs envMasqFail chanA [ringB] ([("10@PICKUPMARK")]) =
       Event.markScan (("10")) ::
         ((pickup_by_mark envMasqFail chanA (("10")) [ringB]).2 ++
           (Event.notice (("10")) :: pickup_specs envMasqFail chanA [ringB] []))) :=
  ⟨(C4_merge_fail_like_not_found envMasqFail chanA [ringB] (("100")) [] (("100")) none ringB
      (by decide)).1 (by decide) (by decide) (by decide),
   (C4_merge_fail_like_not_found envMasqFail chanA [ringB] (("10@PICKUPMARK")) [] (("10"))
      (some (("PICKUPMARK"))) ringB (by decide)).2 (by decide) (by decide) (by decide)⟩

/-- The merge trace never carries an extension-scan event. -/
theorem extenScan_notin_pickup_do (env : Env) (chan t : Channel) (e c : String) :
    Event.extenScan e c ∉ (pickup_do env chan t).2 := by
  unfold pickup_do
  cases h1 : env.answerOk chan <;> cases h2 : env.queueOk chan <;>
    cases h3 : env.masqOk chan t <;> simp [h1, h2, h3]

/-- The mark-scan trace never carries an extension-scan event. -/
theorem extenScan_notin_by_mark (env : Env) (chan : Channel) (m : String) :
    ∀ (reg : List Channel) (e c : String),
      Event.extenScan e c ∉ (pickup_by_mark env chan m reg).2 := by
  intro reg
  induction reg with
  | nil => intro e c; simp [pickup_by_mark]
  | cons u us ih =>
    intro e c
    by_cases hc : (markMatch u m && can_pickup u) = true <;>
      simp [pickup_by_mark, hc, extenScan_notin_pickup_do env chan u e c, ih e c]

/-- C2 (amended): on the spec string 10@PICKUPMARK&20 the driver enters the
mark scan for 10 as its very first action, before any extension scan; and
whenever the mark pickup as a whole succeeds (some registry channel passes
the mark match and the eligibility test and the three-step merge returns
0), the extension spec 20 is never evaluated. -/
theorem C2_mark_tried_first (env : Env) (chan : Channel) (reg : List Channel) :
    ((pickup_exec env chan reg (some (("10@PICKUPMARK&20")))).2.head? =
      some (Event.markScan (("10")))) ∧
    ((pickup_by_mark env chan (("10")) reg).1 = 0 →
      ∀ e c, Event.extenScan e c ∉
        (pickup_exec env chan reg (some (("10@PICKUPMARK&20")))).2) := by
  have hp : parseTokens ("10@PICKUPMARK&20") = [("10@PICKUPMARK"), ("20")] := by decide
  have hx : pickup_exec env chan reg (some (("10@PICKUPMARK&20"))) =
      (0, pickup_specs env chan reg ([("10@PICKUPMARK"), ("20")])) := by
    rw [pickup_exec_nonempty env chan reg _ (by decide), hp]
  rw [hx]
  have hs : splitAtFirstAt ("10@PICKUPMARK") = ((("10")), some (("PICKUPMARK"))) := by decide
  have hm : ctxIsMark (some (("PICKUPMARK"))) = true := by decide
  by_cases hr : (pickup_by_mark env chan (("10")) reg).1 = 0
  · refine ⟨?_, ?_⟩
    · simp [pickup_specs, hs, hm, hr]
    · intro _ e c
      have hnot := extenScan_notin_by_mark env chan (("10")) reg e c
      simp [pickup_specs, hs, hm, hr, hnot]
  · exact ⟨by simp [pickup_specs, hs, hm, hr], fun h => absurd h hr⟩

/-- Witness for C2 (amended) at concrete inputs: with a ringing unattached
channel carrying mark 10 and every engine call succeeding, the mark pickup
returns 0 and no extension scan appears in the trace. -/
theorem C2_mark_tried_first_witness :
    (pickup_by_mark envAllOk chanA (("10")) [ringB]).1 = 0 ∧
    (∀ e c, Event.extenScan e c ∉
      (pickup_exec envAllOk chanA [ringB] (some (("10@PICKUPMARK&20")))).2) :=
  ⟨by decide, (C2_mark_tried_first envAllOk chanA [ringB]).2 (by decide)⟩

/-- C2 counterexample: in the registry [ringB] the mark match for 10
succeeds on ringB, yet with a failing masquerade the driver goes on to
evaluate the extension spec 20 (in the requester context default), so a
successful mark match alone does not keep the extension spec from being
evaluated. -/
theorem C2_counterexample :
    (ringB ∈ [ringB] ∧ markMatch ringB (("10")) = true) ∧
    Event.extenScan (("20")) (("default")) ∈
      (pickup_exec envMasqFail chanA [ringB] (some (("10@PICKUPMARK&20")))).2 := by
  exact ⟨⟨by decide, by decide⟩, by decide⟩

/-- C10: a spec token whose context part is empty (identifier with a
trailing at-sign) is handled exactly like the bare identifier token: the
mark branch is not taken and the extension scan runs in the context of the
requesting channel; the whole remaining behaviour coincides. -/
theorem C10_empty_context_like_none (env : Env) (chan : Channel) (reg : List Channel)
    (tok tok2 exten : String) (rest : List String)
    (h1 : splitAtFirstAt tok = (exten, some ("")))
    (h2 : splitAtFirstAt tok2 = (exten, none)) :
    pickup_specs env chan reg (tok :: rest) = pickup_specs env chan reg (tok2 :: rest) ∧
    (pickup_specs env chan reg (tok :: rest)).head? =
      some (Event.extenScan exten chan.context) := by
  have hm1 : ctxIsMark (some ("")) = false := by decide
  have hm2 : ctxIsMark (none : Option String) = false := rfl
  have hc1 : ctxOrDefault (some ("")) chan.context = chan.context := rfl
  have hc2 : ctxOrDefault (none : Option String) chan.context = chan.context := rfl
  constructor
  · simp [pickup_specs, h1, h2, hm1, hm2, hc1, hc2]
  · by_cases hz : (pickup_by_exten env chan exten chan.context reg).1 = 0 <;>
      simp [pickup_specs, h1, hm1, hc1, hz]

/-- Witness for C10 at concrete inputs: the tokens 100@ and 100 give the
same behaviour, an extension scan for 100 in the requester context. -/
theorem C10_empty_context_like_none_witness :
    pickup_specs envAllOk chanA [ringB] ([("100@")]) =
      pickup_specs envAllOk chanA [ringB] ([("100")]) ∧
    (pickup_specs envAllOk chanA [ringB] ([("100@")])).head? =
      some (Event.extenScan (("100")) chanA.context) :=
  C10_empty_context_like_none envAllOk chanA [ringB] (("100@")) (("100")) (("100")) []
    (by decide) (by decide)

end DirectedPickup
